import Mathlib

/-!
Shallow embedding of `src/app.js` (a small Google-Calendar caching proxy)
and proofs about its cache-refresh-and-serve logic.

The embedding models:
* the per-event transformation inside `fetchEvents` (lines 129-151),
* the return value of `fetchEvents` (lines 124-127 and 152),
* the cache-update step performed by `cacheEvents`' promise handler
  (lines 97-106), including its logging and its lack of a rejection handler,
* the synchronous read accessor `getEvents` (lines 87-92),
* the startup precondition checks (lines 35-40) relative to `app.listen`
  (line 56).

JavaScript `undefined` is modelled as `Option.none`; string-or-absent
fields are `Option String`; the JS `||` operator on such fields is `jsOr`
(empty strings are falsy).  `JSON.stringify` of the event array is modelled
by `serializeEvents`, which keeps the insertion order of the object keys and
omits keys whose value is `undefined`, as `JSON.stringify` does.
-/

namespace CalendarApp

/-- The nested `start`/`end` object of a raw Google-Calendar event:
`dateTime` (RFC3339 date-time) or `date` (all-day date), each possibly absent. -/
structure EventTime where
  dateTime : Option String
  date : Option String
deriving DecidableEq

/-- A raw event record from the provider, restricted to the fields
`fetchEvents` reads (lines 133-139 of `src/app.js`). -/
structure RawEvent where
  start : EventTime
  «end» : EventTime
  summary : Option String
  hangoutLink : Option String
  htmlLink : Option String
  location : Option String
  description : Option String
deriving DecidableEq

/-- The simplified event built by `fetchEvents` (the `calEvent` object,
lines 132-139). -/
structure SimplifiedEvent where
  start : Option String
  «end» : Option String
  summary : Option String
  hangoutLink : Option String
  htmlLink : Option String
  location : Option String
  description : Option String
deriving DecidableEq

/-- JavaScript `a || b` on string-or-undefined values: `a` unless `a` is
falsy (`undefined` or the empty string), in which case `b`. -/
def jsOr (a b : Option String) : Option String :=
  match a with
  | some s => if s = "" then b else some s
  | none => b

/-- The per-event transformation of `fetchEvents` (lines 132-139):
`calEvent.start = event.start.dateTime || event.start.date`, same for `end`,
all other fields copied verbatim. -/
def transformEvent (e : RawEvent) : SimplifiedEvent :=
  { start := jsOr e.start.dateTime e.start.date
    «end» := jsOr e.«end».dateTime e.«end».date
    summary := e.summary
    hangoutLink := e.hangoutLink
    htmlLink := e.htmlLink
    location := e.location
    description := e.description }

/-- Hexadecimal digit, lower case (as produced by `JSON.stringify` for
control characters). -/
def hexDigit (n : Nat) : Char :=
  if n < 10 then Char.ofNat (48 + n) else Char.ofNat (87 + n)

/-- Four-digit hexadecimal rendering used in `\uXXXX` escapes. -/
def hex4 (n : Nat) : String :=
  String.mk [hexDigit (n / 4096 % 16), hexDigit (n / 256 % 16),
             hexDigit (n / 16 % 16), hexDigit (n % 16)]

/-- `JSON.stringify` escaping of a single character. -/
def escapeJsonChar (c : Char) : String :=
  if c.toNat = 34 then "\\\""
  else if c.toNat = 92 then "\\\\"
  else if c.toNat = 8 then "\\b"
  else if c.toNat = 9 then "\\t"
  else if c.toNat = 10 then "\\n"
  else if c.toNat = 12 then "\\f"
  else if c.toNat = 13 then "\\r"
  else if c.toNat < 32 then "\\u" ++ hex4 c.toNat
  else String.singleton c

/-- `JSON.stringify` of a string value. -/
def jsonString (s : String) : String :=
  "\"" ++ String.join (s.toList.map escapeJsonChar) ++ "\""

/-- The key/value pairs of a `calEvent` object, in insertion order
(lines 133-139). -/
def eventFields (e : SimplifiedEvent) : List (String × Option String) :=
  [("start", e.start), ("end", e.«end»), ("summary", e.summary),
   ("hangoutLink", e.hangoutLink), ("htmlLink", e.htmlLink),
   ("location", e.location), ("description", e.description)]

/-- The serialized `"key":"value"` members of one event: keys whose value is
`undefined` are omitted, as `JSON.stringify` omits them. -/
def serializedMembers (e : SimplifiedEvent) : List String :=
  (eventFields e).filterMap
    (fun p => p.2.map (fun v => jsonString p.1 ++ ":" ++ jsonString v))

/-- `JSON.stringify` of one `calEvent` object. -/
def serializeEvent (e : SimplifiedEvent) : String :=
  "\x7b" ++ String.intercalate "," (serializedMembers e) ++ "\x7d"

/-- `JSON.stringify(calEvents)` (line 152): the serialized array. -/
def serializeEvents (es : List SimplifiedEvent) : String :=
  "[" ++ String.intercalate "," (es.map serializeEvent) ++ "]"

/-- A value that can end up in the `calendarEvents` slot.  `fetchEvents`
returns either the raw (unserialized) array `calEvents` — line 126, taken
when the provider returned no list or an empty list — or the string
`JSON.stringify(calEvents)` — line 152, taken when at least one event was
returned. -/
inductive CacheVal where
  | arr (events : List SimplifiedEvent)
  | str (s : String)
deriving DecidableEq

/-- The value `fetchEvents` resolves with (lines 124-127 and 129-152),
as a function of `res.data.items`: `none` models `items` being absent
(not a list), `some l` models the list `l`. -/
def fetchEventsResult : Option (List RawEvent) → CacheVal
  | none => CacheVal.arr []
  | some [] => CacheVal.arr []
  | some evs => CacheVal.str (serializeEvents (evs.map transformEvent))

/-- `JSON.stringify(calendarEvents)` as logged by the `cacheEvents` handler
(line 102): stringifying the raw array serializes it; stringifying the
already-serialized string quotes it. -/
def stringifyVal : CacheVal → String
  | CacheVal.arr evs => serializeEvents evs
  | CacheVal.str s => jsonString s

/-- The process-wide cache slot `var calendarEvents` (line 50):
`none` is the never-populated `undefined` state. -/
abbrev Cache := Option CacheVal

/-- Completion of one refresh cycle on the cache slot: the promise handler
installed by `cacheEvents` (lines 99-105) assigns `calendarEvents = response`
when `fetchEvents` resolves; when it rejects there is no rejection handler,
so nothing runs and the slot keeps its previous value. -/
def cacheEventsComplete (c : Cache) : Except String (Option (List RawEvent)) → Cache
  | Except.ok items => some (fetchEventsResult items)
  | Except.error _ => c

/-- What one call to `getEvents()` (lines 87-92) does, observed at the
moment it returns: `returned` is the value of the `return calendarEvents`
statement and `refreshTriggered` records whether `cacheEvents()` was
invoked.  `cacheEvents` only registers a promise handler — the assignment
to `calendarEvents` happens in a later microtask, after `getEvents` has
already returned — so `returned` is the slot's value from before any
triggered refresh completes. -/
structure GetEventsResult where
  returned : Cache
  refreshTriggered : Bool
deriving DecidableEq

/-- The read accessor `getEvents` (lines 87-92): when
`calendarEvents === undefined` it calls `cacheEvents()` and then executes
`return calendarEvents` — at which point the slot is still `undefined`,
because `cacheEvents` only registered a promise handler; otherwise it
returns the populated slot without triggering anything. -/
def getEvents : Cache → GetEventsResult
  | none => { returned := none, refreshTriggered := true }
  | some v => { returned := some v, refreshTriggered := false }

/-- Observable process state for the refresh cycle: the cache slot plus the
messages sent to the logger at each level. -/
structure AppState where
  cache : Cache
  logInfo : List String
  logDebug : List String
  logError : List String
deriving DecidableEq

/-- Process state at startup: `calendarEvents` is `undefined` and nothing
has been logged. -/
def startState : AppState :=
  { cache := none, logInfo := [], logDebug := [], logError := [] }

/-- `"undefined"`-printing string concatenation used by `eventDetail`
(lines 143-149): JS `+` renders an absent field as the text `undefined`. -/
def showOpt : Option String → String
  | some s => s
  | none => "undefined"

/-- The `eventDetail` string logged per event at debug level
(lines 143-150). -/
def eventDetail (e : SimplifiedEvent) : String :=
  "\nSummary: " ++ showOpt e.summary ++ "\nHangout Link: " ++
    showOpt e.hangoutLink ++ "\nHTML Link: " ++
    showOpt e.htmlLink ++ "\nLocation: " ++
    showOpt e.location ++ "\nStart: " ++
    showOpt e.start ++ "\nEnd: " ++
    showOpt e.«end» ++ "\nDescription: " ++
    showOpt e.description ++ "\n"

/-- The debug messages emitted inside `fetchEvents` after the provider
responded (lines 125, 128, 150); `numLabel` is the string rendering of
`NUM_EVENTS_TO_FETCH`. -/
def fetchDebugLog (numLabel : String) : Option (List RawEvent) → List String
  | none => ["No upcoming events found."]
  | some [] => ["No upcoming events found."]
  | some evs =>
      ("Next (max) " ++ numLabel ++ " Events:") ::
        evs.map (fun e => eventDetail (transformEvent e))

/-- Completion of one `cacheEvents()` cycle (lines 97-106) on the full
observable state.  On a resolved fetch the handler stores the response and
logs the stringified cache at debug level and `Refreshed Cache` at info
level; on a rejected fetch no handler is installed (`.then` has no second
argument and there is no `.catch`), so the state — cache and logs alike —
is untouched. -/
def cacheEventsStep (numLabel : String) (s : AppState) :
    Except String (Option (List RawEvent)) → AppState
  | Except.ok items =>
      let v := fetchEventsResult items
      { cache := some v
        logInfo := s.logInfo ++ ["Refreshed Cache"]
        logDebug := s.logDebug ++ fetchDebugLog numLabel items ++ [stringifyVal v]
        logError := s.logError }
  | Except.error _ => s

/-- Cache values reachable during the process lifetime: the slot starts
`undefined` (line 50) and is only ever written by the completion of a
refresh cycle (line 101). -/
inductive ReachableCache : Cache → Prop where
  | init : ReachableCache none
  | step (c : Cache) (f : Except String (Option (List RawEvent))) :
      ReachableCache c → ReachableCache (cacheEventsComplete c f)

/-- The environment variables read by the precondition checks
(lines 14-16): `none` models an unset variable. -/
structure Env where
  CALENDAR_ID : Option String
  API_KEY : Option String
deriving DecidableEq

/-- State reached when module evaluation passes the precondition checks:
the credentials in use and the fact that `app.listen` (line 56) was
reached. -/
structure StartupState where
  calendarId : String
  apiKey : String
  listenerBound : Bool
deriving DecidableEq

/-- Whether module evaluation threw before reaching `app.listen`. -/
def startupThrew : Except String StartupState → Bool
  | Except.error _ => true
  | Except.ok _ => false

/-- Whether the HTTP listener was opened by the evaluation outcome. -/
def listenerOpened : Except String StartupState → Bool
  | Except.ok st => st.listenerBound
  | Except.error _ => false

/-- Module evaluation up to `app.listen`: the precondition checks
(lines 35-40) throw when `CALENDAR_ID === undefined`, then when
`API_KEY === undefined`; only if both pass does evaluation reach
`app.listen(HTTP_PORT, ...)` (line 56). -/
def startup (env : Env) : Except String StartupState :=
  match env.CALENDAR_ID with
  | none => Except.error "env var CALENDAR_ID is required. Attain from Google Calendar > Calendar Settings > Integrate Calendar"
  | some cid =>
    match env.API_KEY with
    | none => Except.error "env var API_KEY is required. Attain from Google Cloud Console > Google API > Credentials"
    | some key =>
        Except.ok { calendarId := cid, apiKey := key, listenerBound := true }

/-- A concrete raw event used in witnesses: all fields present, with both a
date-time and an all-day date on each end. -/
def sampleRaw : RawEvent :=
  { start := { dateTime := some "2026-10-11T10:00:00Z", date := some "2026-10-11" }
    «end» := { dateTime := some "2026-10-11T11:00:00Z", date := some "2026-10-11" }
    summary := some "Standup"
    hangoutLink := some "https://meet.example/abc"
    htmlLink := some "https://calendar.example/e/1"
    location := some "Room 1"
    description := some "Daily sync" }

/-- A concrete raw event whose `start.dateTime` and `end.dateTime` are
present but are the empty string, which JavaScript `||` treats as falsy. -/
def rawEmptyDateTime : RawEvent :=
  { start := { dateTime := some "", date := some "2026-05-01" }
    «end» := { dateTime := some "", date := some "2026-05-02" }
    summary := none
    hangoutLink := none
    htmlLink := none
    location := none
    description := none }

/-! ## Theorems about the claims -/

/-- C1 counterexample: calling `getEvents()` while the cache is unpopulated
returns the `undefined` marker, not a populated list — the triggered
refresh is asynchronous and has not assigned the slot when `getEvents`
returns. -/
theorem getEvents_unpopulated_returns_undefined :
    (getEvents none).returned = none := rfl

/-- C1 (amended): a `getEvents()` call on the unpopulated cache does
synchronously trigger a refresh cycle, but the value it returns is the
cache content from before that cycle completes, i.e. the
unpopulated/`undefined` marker. -/
theorem getEvents_unpopulated_triggers_refresh :
    (getEvents none).refreshTriggered = true ∧ (getEvents none).returned = none :=
  ⟨rfl, rfl⟩

/-- C2 counterexample: a refresh cycle that finds zero events stores the
raw (unserialized) empty array — line 126 returns `calEvents` itself —
which is not the serialized form `JSON.stringify([])` that a refresh with
one or more events would store via line 152.  So successful refresh cycles
do not all store the cache content in the same serialized form. -/
theorem zero_event_refresh_stores_raw_array :
    cacheEventsComplete none (Except.ok (some [])) = some (CacheVal.arr []) ∧
    CacheVal.arr [] ≠ CacheVal.str (serializeEvents []) ∧
    cacheEventsComplete none (Except.ok (some [sampleRaw])) =
      some (CacheVal.str (serializeEvents [transformEvent sampleRaw])) :=
  ⟨rfl, by simp, rfl⟩

/-- C2 (amended): every reachable value of the cache slot is the
unpopulated `undefined` marker, the raw empty array (stored when a refresh
cycle found no events or no list), or the serialized form of the
transformed event list (stored when a refresh cycle found one or more
events). -/
theorem cache_slot_invariant (c : Cache) (h : ReachableCache c) :
    c = none ∨ c = some (CacheVal.arr []) ∨
      ∃ evs : List RawEvent, evs ≠ [] ∧
        c = some (CacheVal.str (serializeEvents (evs.map transformEvent))) := by
  induction h with
  | init => exact Or.inl rfl
  | step c f _ ih =>
      cases f with
      | error e => exact ih
      | ok items =>
          cases items with
          | none => exact Or.inr (Or.inl rfl)
          | some l =>
              cases l with
              | nil => exact Or.inr (Or.inl rfl)
              | cons x xs => exact Or.inr (Or.inr ⟨x :: xs, by simp, rfl⟩)

/-- Witness for `cache_slot_invariant` at the initial (reachable)
state. -/
theorem cache_slot_invariant_witness :
    (none : Cache) = none ∨ (none : Cache) = some (CacheVal.arr []) ∨
      ∃ evs : List RawEvent, evs ≠ [] ∧
        (none : Cache) = some (CacheVal.str (serializeEvents (evs.map transformEvent))) :=
  cache_slot_invariant none ReachableCache.init

/-- C3: when the external fetch resolves with no list or with an empty
list, the completed refresh cycle sets the cache to the empty array —
distinct from the unpopulated marker — and a subsequent `getEvents()` call
returns that empty array without triggering another refresh. -/
theorem empty_fetch_populates_empty_list (c : Cache) (items : Option (List RawEvent))
    (h : items = none ∨ items = some []) :
    cacheEventsComplete c (Except.ok items) = some (CacheVal.arr []) ∧
    (getEvents (cacheEventsComplete c (Except.ok items))).returned =
      some (CacheVal.arr []) ∧
    (getEvents (cacheEventsComplete c (Except.ok items))).refreshTriggered = false := by
  rcases h with h | h <;> subst h <;> exact ⟨rfl, rfl, rfl⟩

/-- Witness for `empty_fetch_populates_empty_list` with an empty provider
list arriving on the unpopulated cache. -/
theorem empty_fetch_populates_empty_list_witness :
    cacheEventsComplete none (Except.ok (some ([] : List RawEvent))) =
      some (CacheVal.arr []) ∧
    (getEvents (cacheEventsComplete none (Except.ok (some ([] : List RawEvent))))).returned =
      some (CacheVal.arr []) ∧
    (getEvents (cacheEventsComplete none (Except.ok (some ([] : List RawEvent))))).refreshTriggered =
      false :=
  empty_fetch_populates_empty_list none (some []) (Or.inr rfl)

/-- C4: when the external fetch rejects, the refresh cycle leaves the cache
slot untouched — no handler was attached to the rejection — so any
previously cached value stays visible and subsequent `getEvents()` calls
return it unchanged. -/
theorem fetch_failure_preserves_cache (v : CacheVal) (err : String) :
    cacheEventsComplete (some v) (Except.error err) = some v ∧
    (getEvents (cacheEventsComplete (some v) (Except.error err))).returned = some v :=
  ⟨rfl, rfl⟩

/-- Witness for `fetch_failure_preserves_cache` on a cache previously
populated with one serialized event. -/
theorem fetch_failure_preserves_cache_witness :
    cacheEventsComplete (some (CacheVal.str (serializeEvents [transformEvent sampleRaw])))
        (Except.error "fetch failed") =
      some (CacheVal.str (serializeEvents [transformEvent sampleRaw])) ∧
    (getEvents (cacheEventsComplete
        (some (CacheVal.str (serializeEvents [transformEvent sampleRaw])))
        (Except.error "fetch failed"))).returned =
      some (CacheVal.str (serializeEvents [transformEvent sampleRaw])) :=
  fetch_failure_preserves_cache (CacheVal.str (serializeEvents [transformEvent sampleRaw]))
    "fetch failed"

/-- C5 counterexample: a failing fetch produces no log entry at any level —
`cacheEvents` installs no rejection handler (`.then` has only a fulfillment
callback and there is no `.catch`), so the failure is not logged, contrary
to the claim. -/
theorem fetch_failure_logs_nothing :
    cacheEventsStep "10" startState (Except.error "provider unreachable") = startState ∧
    (cacheEventsStep "10" startState (Except.error "provider unreachable")).logInfo = [] ∧
    (cacheEventsStep "10" startState (Except.error "provider unreachable")).logDebug = [] ∧
    (cacheEventsStep "10" startState (Except.error "provider unreachable")).logError = [] :=
  ⟨rfl, rfl, rfl, rfl⟩

/-- C5 (amended): a fetch failure does not update the cache and is not
surfaced synchronously to any caller, but it is not absorbed either: the
application attaches no rejection handler, so the failure is not logged
and the whole observable state is left untouched. -/
theorem fetch_failure_unlogged_and_unabsorbed (numLabel : String) (s : AppState)
    (err : String) :
    cacheEventsStep numLabel s (Except.error err) = s := rfl

/-- Witness for `fetch_failure_unlogged_and_unabsorbed` at the start
state. -/
theorem fetch_failure_unlogged_and_unabsorbed_witness :
    cacheEventsStep "10" startState (Except.error "auth rejected") = startState :=
  fetch_failure_unlogged_and_unabsorbed "10" startState "auth rejected"

/-- C6 counterexample: on a raw event whose `start.dateTime` is present but
is the empty string, the transformer's `||` treats it as falsy and falls
through to the all-day date, so the output `start` does not equal the
present date-time string. -/
theorem empty_dateTime_falls_through_to_date :
    rawEmptyDateTime.start.dateTime = some "" ∧
    (transformEvent rawEmptyDateTime).start = some "2026-05-01" ∧
    (transformEvent rawEmptyDateTime).start ≠ some "" := by
  refine ⟨rfl, rfl, ?_⟩
  decide

/-- C6 (amended): for every raw event whose start date-time is present and
non-empty, the output `start` equals that date-time string verbatim,
regardless of the all-day date; when the date-time is absent or empty, the
output `start` equals the all-day date field; and the same rule holds for
`end`.  Strings are passed through unchanged. -/
theorem transform_start_end_precedence (e : RawEvent) :
    ((∀ s, e.start.dateTime = some s → s ≠ "" → (transformEvent e).start = some s) ∧
     ((e.start.dateTime = none ∨ e.start.dateTime = some "") →
        (transformEvent e).start = e.start.date)) ∧
    ((∀ s, e.«end».dateTime = some s → s ≠ "" → (transformEvent e).«end» = some s) ∧
     ((e.«end».dateTime = none ∨ e.«end».dateTime = some "") →
        (transformEvent e).«end» = e.«end».date)) := by
  refine ⟨⟨?_, ?_⟩, ?_, ?_⟩
  · intro s hs hne
    simp [transformEvent, jsOr, hs, hne]
  · rintro (h | h) <;> simp [transformEvent, jsOr, h]
  · intro s hs hne
    simp [transformEvent, jsOr, hs, hne]
  · rintro (h | h) <;> simp [transformEvent, jsOr, h]

/-- Witness for `transform_start_end_precedence` on a concrete event with
both a non-empty date-time and an all-day date. -/
theorem transform_start_end_precedence_witness :
    (transformEvent sampleRaw).start = some "2026-10-11T10:00:00Z" :=
  (transform_start_end_precedence sampleRaw).1.1 "2026-10-11T10:00:00Z" rfl (by decide)

/-- C7: the transformer copies `summary`, `hangoutLink`, `htmlLink`,
`location` and `description` verbatim as optional values: a field absent
(`undefined`) on the raw event is absent on the output — never defaulted to
an empty string — and a present field is the identical string. -/
theorem transform_copies_optional_fields (e : RawEvent) :
    (transformEvent e).summary = e.summary ∧
    (transformEvent e).hangoutLink = e.hangoutLink ∧
    (transformEvent e).htmlLink = e.htmlLink ∧
    (transformEvent e).location = e.location ∧
    (transformEvent e).description = e.description :=
  ⟨rfl, rfl, rfl, rfl, rfl⟩

/-- Witness for `transform_copies_optional_fields` on an event with every
optional field absent. -/
theorem transform_copies_optional_fields_witness :
    (transformEvent rawEmptyDateTime).summary = rawEmptyDateTime.summary ∧
    (transformEvent rawEmptyDateTime).hangoutLink = rawEmptyDateTime.hangoutLink ∧
    (transformEvent rawEmptyDateTime).htmlLink = rawEmptyDateTime.htmlLink ∧
    (transformEvent rawEmptyDateTime).location = rawEmptyDateTime.location ∧
    (transformEvent rawEmptyDateTime).description = rawEmptyDateTime.description :=
  transform_copies_optional_fields rawEmptyDateTime

/-- C8: when `CALENDAR_ID` or `API_KEY` is unset, module evaluation throws
at the precondition checks, before `app.listen` runs, so no HTTP listener
is ever opened. -/
theorem missing_config_aborts_before_listen (env : Env)
    (h : env.CALENDAR_ID = none ∨ env.API_KEY = none) :
    startupThrew (startup env) = true ∧ listenerOpened (startup env) = false := by
  rcases env with ⟨cid, key⟩
  rcases h with h | h
  · simp only at h
    subst h
    exact ⟨rfl, rfl⟩
  · simp only at h
    subst h
    cases cid with
    | none => exact ⟨rfl, rfl⟩
    | some c => exact ⟨rfl, rfl⟩

/-- Witness for `missing_config_aborts_before_listen` with `CALENDAR_ID`
unset. -/
theorem missing_config_aborts_before_listen_witness :
    startupThrew (startup { CALENDAR_ID := none, API_KEY := some "key" }) = true ∧
    listenerOpened (startup { CALENDAR_ID := none, API_KEY := some "key" }) = false :=
  missing_config_aborts_before_listen { CALENDAR_ID := none, API_KEY := some "key" }
    (Or.inl rfl)

/-- C9: refresh is idempotent — one completed refresh cycle with fetch
result `items` sets the cache to `fetchEventsResult items`, and a second
cycle with the unchanged result stores the byte-identical content. -/
theorem refresh_idempotent (c : Cache) (items : Option (List RawEvent)) :
    cacheEventsComplete c (Except.ok items) = some (fetchEventsResult items) ∧
    cacheEventsComplete (cacheEventsComplete c (Except.ok items)) (Except.ok items) =
      cacheEventsComplete c (Except.ok items) :=
  ⟨rfl, rfl⟩

/-- Witness for `refresh_idempotent` with a one-event fetch result arriving
on the unpopulated cache. -/
theorem refresh_idempotent_witness :
    cacheEventsComplete none (Except.ok (some [sampleRaw])) =
      some (fetchEventsResult (some [sampleRaw])) ∧
    cacheEventsComplete (cacheEventsComplete none (Except.ok (some [sampleRaw])))
        (Except.ok (some [sampleRaw])) =
      cacheEventsComplete none (Except.ok (some [sampleRaw])) :=
  refresh_idempotent none (some [sampleRaw])

/-- C10: the precondition checks reject exactly the strictly-`undefined`
values — evaluation throws iff `CALENDAR_ID` or `API_KEY` is unset — and in
particular empty-string credentials pass both checks, so the process
proceeds to bind the HTTP port with the empty credential in use. -/
theorem empty_string_credentials_accepted (env : Env) :
    (startupThrew (startup env) = true ↔
      (env.CALENDAR_ID = none ∨ env.API_KEY = none)) ∧
    startup { CALENDAR_ID := some "", API_KEY := some "" } =
      Except.ok { calendarId := "", apiKey := "", listenerBound := true } := by
  constructor
  · rcases env with ⟨cid, key⟩
    cases cid <;> cases key <;> simp [startup, startupThrew]
  · rfl

/-- Witness for `empty_string_credentials_accepted` instantiated at the
fully-unset environment. -/
theorem empty_string_credentials_accepted_witness :
    (startupThrew (startup { CALENDAR_ID := none, API_KEY := none }) = true ↔
      ((none : Option String) = none ∨ (none : Option String) = none)) ∧
    startup { CALENDAR_ID := some "", API_KEY := some "" } =
      Except.ok { calendarId := "", apiKey := "", listenerBound := true } :=
  empty_string_credentials_accepted { CALENDAR_ID := none, API_KEY := none }

end CalendarApp
